import Mathlib

/-
  Verification development for the webview-navigation-engine repository.

  The repository contains two engine variants:
  * an entry-store engine (class NavigationEngine in src/unnamed/part_002,
    types in core/types.ts): a list of NavigationEntry values plus a
    currentIndex, priority-aware back and forward traversal, listener
    notification and sessionStorage persistence;
  * a page-stack engine (packages/webview-navigation-engine/src/core/
    NavigationEngine.ts): a stack of PageId strings, an overlay stack,
    a flow registry with an active flow context, and a composite
    handleBack operation.

  Both are embedded below as pure state-passing functions.  Side effects
  (listener invocation, overlay dismissal callbacks, sessionStorage writes)
  are modelled as explicit event lists; thrown exceptions are modelled as
  an error field of the result.  JavaScript string truthiness (the empty
  string is falsy) is modelled explicitly wherever the source branches on
  a string value.
-/

set_option maxHeartbeats 1000000

namespace WebviewNav

/-! ## Variant A: the entry-store engine (src/unnamed/part_002) -/

namespace EntryEngine

/-- enum NavigationPriority from core/types.ts. -/
inductive NavigationPriority where
  | NORMAL
  | POPUP
  | FULLSCREEN
deriving DecidableEq, Repr

/-- interface NavigationEntry from core/types.ts.  The optional `state`
payload is an opaque key-value record, modelled as an optional string. -/
structure NavigationEntry where
  id : String
  route : String
  payload : Option String
  priority : NavigationPriority
  timestamp : Int
  flowId : Option String
deriving DecidableEq, Repr

/-- One registered listener of the listeners set.  The `throws` flag records
whether the callback raises an exception when invoked. -/
structure AListener where
  id : Nat
  throws : Bool
deriving DecidableEq, Repr

/-- interface NavigationEngineConfig from core/types.ts, with the
constructor defaults applied. -/
structure AConfig where
  enableSessionStorage : Bool
  sessionStorageKey : String
  defaultPriority : NavigationPriority
deriving DecidableEq, Repr

/-- The mutable fields of the entry-store engine. -/
structure EngineState where
  config : AConfig
  history : List NavigationEntry
  currentIndex : Int
  listeners : List AListener
deriving DecidableEq, Repr

/-- Externally observable effects of one operation: a listener invocation
(the argument passed is a NavigationEntry, possibly undefined for corrupt
indices), a caught-and-logged listener exception, or a sessionStorage
write of the pair history plus currentIndex. -/
inductive AEvent where
  | notify (listenerId : Nat) (entry : Option NavigationEntry)
  | caughtError (listenerId : Nat)
  | save (history : List NavigationEntry) (currentIndex : Int)
deriving DecidableEq, Repr

/-- JavaScript array indexing with a possibly negative index:
`this.history[i]` is undefined for i outside the array bounds. -/
def listGet (h : List NavigationEntry) (i : Int) : Option NavigationEntry :=
  if i < 0 then none else h.get? i.toNat

/-- Priority of the entry stored at a (nonnegative) index. -/
def priAt (h : List NavigationEntry) (t : Nat) : Option NavigationPriority :=
  (h.get? t).map (·.priority)

/-- The while loop in back() and canGoBack():
starting at targetIndex, decrement while the entry there has priority
POPUP; the result is the final targetIndex, possibly -1. -/
def popupScan (h : List NavigationEntry) : Nat → Int
  | 0 => if priAt h 0 = some NavigationPriority.POPUP then -1 else 0
  | t + 1 =>
      if priAt h (t + 1) = some NavigationPriority.POPUP then popupScan h t
      else ((t + 1 : Nat) : Int)

/-- notifyListeners: every listener is invoked; a throwing listener is
caught and logged (try/catch in the source), so iteration continues. -/
def notifyListeners (e : Option NavigationEntry) : List AListener → List AEvent
  | [] => []
  | l :: rest =>
      (AEvent.notify l.id e :: if l.throws then [AEvent.caughtError l.id] else [])
        ++ notifyListeners e rest

/-- saveToSessionStorage: a storage write happens only when
enableSessionStorage is set (the window object is assumed present). -/
def saveEvents (cfg : AConfig) (h : List NavigationEntry) (i : Int) : List AEvent :=
  if cfg.enableSessionStorage then [AEvent.save h i] else []

/-- Result of back() and forward(): the new state, the returned boolean,
and the emitted effects. -/
structure ARes where
  state : EngineState
  ok : Bool
  events : List AEvent
deriving DecidableEq, Repr

/-- Shared tail of the successful back() and forward() branches: set
currentIndex, notify with the entry now at currentIndex, persist,
return true. -/
def moveTo (s : EngineState) (i : Int) : ARes :=
  ⟨{ s with currentIndex := i }, true,
    notifyListeners (listGet s.history i) s.listeners ++ saveEvents s.config s.history i⟩

/-- back() from src/unnamed/part_002.  The catch-all branch covers both
priority NORMAL and a missing entry at currentIndex (a corrupt state, on
which the source would fail identically in back and canGoBack). -/
def back (s : EngineState) : ARes :=
  if s.currentIndex ≤ 0 then ⟨s, false, []⟩
  else
    match priAt s.history s.currentIndex.toNat with
    | some NavigationPriority.FULLSCREEN => moveTo s (s.currentIndex - 1)
    | some NavigationPriority.POPUP =>
        let t := popupScan s.history (s.currentIndex.toNat - 1)
        if t < 0 then ⟨s, false, []⟩ else moveTo s t
    | _ => moveTo s (s.currentIndex - 1)

/-- forward() from src/unnamed/part_002. -/
def forward (s : EngineState) : ARes :=
  if (s.history.length : Int) - 1 ≤ s.currentIndex then ⟨s, false, []⟩
  else moveTo s (s.currentIndex + 1)

/-- canGoBack() from src/unnamed/part_002. -/
def canGoBack (s : EngineState) : Bool :=
  if s.currentIndex ≤ 0 then false
  else
    match priAt s.history s.currentIndex.toNat with
    | some NavigationPriority.FULLSCREEN => true
    | some NavigationPriority.POPUP =>
        decide (0 ≤ popupScan s.history (s.currentIndex.toNat - 1))
    | _ => decide (0 < s.currentIndex)

/-- canGoForward() from src/unnamed/part_002. -/
def canGoForward (s : EngineState) : Bool :=
  decide (s.currentIndex < (s.history.length : Int) - 1)

/-- getCurrent() from src/unnamed/part_002. -/
def getCurrent (s : EngineState) : Option NavigationEntry :=
  if s.currentIndex < 0 ∨ (s.history.length : Int) ≤ s.currentIndex then none
  else listGet s.history s.currentIndex

/-- getHistory() returns a copy of the history array. -/
def getHistory (s : EngineState) : List NavigationEntry :=
  s.history

/-- interface NavigationOptions from core/types.ts. -/
structure NavigationOptions where
  replace : Bool := false
  payload : Option String := none
  priority : Option NavigationPriority := none
  flowId : Option String := none
  skipHistory : Bool := false
deriving DecidableEq, Repr

/-- JavaScript assignment `a[i] = x` on the indices a dense entry list
can represent: a negative index is a plain property write that leaves
the array items untouched, and an index inside the bounds replaces the
element there.  For an index at or beyond the length (reachable only
through a corrupt restored currentIndex) the source turns the array into
a sparse array of length i+1 with holes below the written index; a dense
list of entries cannot represent that object, so the model keeps the
list unchanged on that branch, and no theorem in this file depends on
it (the notification behavior of navigate, the only statement quantified
over such states, does not read the stored array). -/
def setAt (h : List NavigationEntry) (i : Int) (e : NavigationEntry) : List NavigationEntry :=
  if i < 0 then h
  else if i.toNat < h.length then h.set i.toNat e
  else h

/-- The NavigationEntry that navigate() builds from its arguments, the
generated id and the Date.now() timestamp. -/
def navEntry (cfg : AConfig) (route : String) (opts : NavigationOptions)
    (newId : String) (now : Int) : NavigationEntry :=
  { id := newId, route := route, payload := opts.payload,
    priority := opts.priority.getD cfg.defaultPriority, timestamp := now,
    flowId := opts.flowId }

/-- navigate() from src/unnamed/part_002.  The generated id and the
Date.now() timestamp are passed in as parameters. -/
def navigate (s : EngineState) (route : String) (opts : NavigationOptions)
    (newId : String) (now : Int) : EngineState × List AEvent :=
  let entry := navEntry s.config route opts newId now
  if opts.replace = true ∧ s.history ≠ [] then
    let s1 := { s with history := setAt s.history s.currentIndex entry }
    (s1, notifyListeners (some entry) s1.listeners ++ saveEvents s1.config s1.history s1.currentIndex)
  else if opts.skipHistory then
    (s, notifyListeners (some entry) s.listeners)
  else
    let h :=
      (if s.currentIndex < (s.history.length : Int) - 1
       then s.history.take (s.currentIndex + 1).toNat
       else s.history) ++ [entry]
    let s1 := { s with history := h, currentIndex := (h.length : Int) - 1 }
    (s1, notifyListeners (some entry) s1.listeners ++ saveEvents s1.config s1.history s1.currentIndex)

/-- addListener(): the listener set gains one element. -/
def addListener (s : EngineState) (l : AListener) : EngineState :=
  { s with listeners := s.listeners ++ [l] }

/-- clearHistory() from src/unnamed/part_002: empties the store, resets
the index and persists; note that no listener notification is emitted. -/
def clearHistory (s : EngineState) : EngineState × List AEvent :=
  ({ s with history := [], currentIndex := -1 }, saveEvents s.config [] (-1))

/-- removeFlowEntries() from src/unnamed/part_002: filter out entries of
the given flow, clamp the index, persist; again with no notification. -/
def removeFlowEntries (s : EngineState) (flowId : String) : EngineState × List AEvent :=
  let h := s.history.filter (fun e => e.flowId != some flowId)
  let ci :=
    if (h.length : Int) ≤ s.currentIndex then (h.length : Int) - 1 else s.currentIndex
  ({ s with history := h, currentIndex := ci }, saveEvents s.config h ci)

/-- One JSON field of the object stored under the sessionStorage key, as
far as restoreFromSessionStorage inspects it: an array value, a numeric
value, or anything else. -/
inductive JField where
  | jarray (entries : List NavigationEntry)
  | jnumber (n : Int)
  | jother
deriving DecidableEq, Repr

/-- What sessionStorage.getItem plus JSON.parse can yield for the key:
no stored item, a string JSON.parse throws on, or a parsed object with
its history and currentIndex fields. -/
inductive RawStore where
  | absent
  | unparsable
  | value (history : JField) (currentIndex : JField)
deriving DecidableEq, Repr

/-- The fallible part of restoreFromSessionStorage: reading and parsing
the stored string.  JSON.parse throwing is the error case. -/
def parseStored : RawStore → Except String (Option (JField × JField))
  | RawStore.absent => Except.ok none
  | RawStore.unparsable => Except.error "SyntaxError"
  | RawStore.value h i => Except.ok (some (h, i))

/-- restoreFromSessionStorage() from src/unnamed/part_002: any parse
failure is caught and leaves the state untouched; a parsed object is
adopted only when its history field is an array and its currentIndex
field is a number. -/
def restoreFromSessionStorage (s : EngineState) (raw : RawStore) : EngineState :=
  if s.config.enableSessionStorage = false then s
  else
    match parseStored raw with
    | Except.error _ => s
    | Except.ok none => s
    | Except.ok (some (h, i)) =>
        match h, i with
        | JField.jarray l, JField.jnumber n => { s with history := l, currentIndex := n }
        | _, _ => s

/-- The state a fresh engine starts from before any restore. -/
def emptyA (cfg : AConfig) : EngineState :=
  { config := cfg, history := [], currentIndex := -1, listeners := [] }

/-- The constructor: start empty, then restore from sessionStorage when
enabled. -/
def construct (cfg : AConfig) (raw : RawStore) : EngineState :=
  if cfg.enableSessionStorage then restoreFromSessionStorage (emptyA cfg) raw
  else emptyA cfg

/-- Recognizer for listener-notification events. -/
def isNotify : AEvent → Bool
  | AEvent.notify _ _ => true
  | _ => false

/-- The listener a notification event is addressed to, if any. -/
def notifyTarget : AEvent → Option Nat
  | AEvent.notify l _ => some l
  | _ => none

end EntryEngine

/-! ## Variant B: the page-stack engine
    (packages/webview-navigation-engine/src/core/NavigationEngine.ts) -/

namespace PageEngine

/-- interface Overlay: the id plus an onBack dismissal callback; the
callback itself is opaque, its invocation is recorded as an event. -/
structure Overlay where
  id : String
deriving DecidableEq, Repr

/-- interface FlowDefinition. -/
structure FlowDefinition where
  name : String
  steps : List String
deriving DecidableEq, Repr

/-- interface ActiveFlowContext. -/
structure ActiveFlowContext where
  name : String
  steps : List String
  currentStepIndex : Int
  entryPageId : Option String
deriving DecidableEq, Repr

/-- One subscribed NavListener; `throws` records whether the callback
raises when invoked. -/
structure BListener where
  id : Nat
  throws : Bool
deriving DecidableEq, Repr

/-- interface NavState, the snapshot passed to listeners. -/
structure NavState where
  current : Option String
  historyStack : List String
  overlayStack : List Overlay
deriving DecidableEq, Repr

/-- The private fields of the class. -/
structure EngineBState where
  mainPage : Option String
  flows : List FlowDefinition
  historyStack : List String
  overlayStack : List Overlay
  activeFlow : Option ActiveFlowContext
  listeners : List BListener
  isInitialized : Bool
deriving DecidableEq, Repr

/-- interface NavigationEngineConfig of this variant. -/
structure BConfig where
  mainPage : String
  flows : Option (List FlowDefinition) := none
deriving DecidableEq, Repr

/-- The navigateTo option: push or replace. -/
inductive NavMethod where
  | push
  | replace
deriving DecidableEq, Repr

/-- Externally observable effects: an overlay dismissal callback
invocation, or a listener invocation with a state snapshot. -/
inductive BEvent where
  | overlayBack (overlayId : String)
  | notified (listenerId : Nat) (snapshot : NavState)
deriving DecidableEq, Repr

/-- Result of a public operation: final state, emitted effects, and the
exception that escaped the call, if any. -/
structure BResult where
  state : EngineBState
  events : List BEvent
  error : Option String
deriving DecidableEq, Repr

/-- Message of the checkInitialized() error. -/
def notSetupMsg : String := "NavigationEngine not setup."

/-- Marker for an exception escaping from a listener callback. -/
def listenerErrMsg : String := "listener exception"

/-- getCurrentPage(): the top of the stack, stored at the array tail. -/
def getCurrentPage (s : EngineBState) : Option String :=
  s.historyStack.getLast?

/-- getState(): the snapshot handed to subscribers. -/
def getState (s : EngineBState) : NavState :=
  { current := getCurrentPage s, historyStack := s.historyStack,
    overlayStack := s.overlayStack }

/-- notify() of this variant has no try/catch around the listener call:
iteration stops at the first throwing listener and the exception escapes.
Returns the invocations that happened and whether an exception escaped. -/
def notifyB (snap : NavState) : List BListener → List BEvent × Bool
  | [] => ([], false)
  | l :: rest =>
      if l.throws then ([BEvent.notified l.id snap], true)
      else
        let r := notifyB snap rest
        (BEvent.notified l.id snap :: r.1, r.2)

/-- Wrap a mutated state into a result by running notify() on it, with
`pre` the effects that already happened in the operation. -/
def notifyAfter (s : EngineBState) (pre : List BEvent) : BResult :=
  let r := notifyB (getState s) s.listeners
  ⟨s, pre ++ r.1, if r.2 then some listenerErrMsg else none⟩

/-- findFlowByPage(): the guard `if (!pageId) return null` is falsy for
both null and the empty string; `steps.includes(pageId)` is membership. -/
def findFlowByPage (flows : List FlowDefinition) (pageId : Option String) :
    Option FlowDefinition :=
  match pageId with
  | none => none
  | some p => if p = "" then none else flows.find? (fun f => decide (p ∈ f.steps))

/-- Array.prototype.indexOf: the index of the first occurrence, -1 when
the element does not occur. -/
def jsIndexOf (p : String) : List String → Int
  | [] => -1
  | x :: xs =>
      if x = p then 0
      else
        let r := jsIndexOf p xs
        if r = -1 then -1 else r + 1

/-- createFlowContextForPage() from NavigationEngine.ts. -/
def createFlowContextForPage (s : EngineBState) (pageId : String)
    (prevPage : Option String) (method : NavMethod) : Option ActiveFlowContext :=
  match findFlowByPage s.flows (some pageId) with
  | none => none
  | some flow =>
      let index : Int := jsIndexOf pageId flow.steps
      match s.activeFlow with
      | some ctx =>
          if ctx.name = flow.name then
            some { ctx with steps := flow.steps, currentStepIndex := index }
          else
            some { name := flow.name, steps := flow.steps, currentStepIndex := index,
                   entryPageId := if method = NavMethod.push then prevPage else none }
      | none =>
          some { name := flow.name, steps := flow.steps, currentStepIndex := index,
                 entryPageId := if method = NavMethod.push then prevPage else none }

/-- The engine state of the module-level fresh instance. -/
def emptyB : EngineBState :=
  { mainPage := none, flows := [], historyStack := [], overlayStack := [],
    activeFlow := none, listeners := [], isInitialized := false }

/-- setup() from NavigationEngine.ts.  mainPage and flows are assigned
before the firstPage check, so they survive even on the thrown error;
the empty string is falsy for the `if (!firstPage)` guard. -/
def setup (s : EngineBState) (config : BConfig) (initialPage : Option String) : BResult :=
  let s1 := { s with mainPage := some config.mainPage, flows := config.flows.getD [] }
  let firstPage := initialPage.getD config.mainPage
  if firstPage = "" then ⟨s1, [], some "NavigationEngine: mainPage required."⟩
  else
    let s2 :=
      { s1 with historyStack := [firstPage],
                activeFlow := createFlowContextForPage s1 firstPage none NavMethod.push,
                isInitialized := true }
    notifyAfter s2 []

/-- JavaScript assignment to the last slot of a nonempty array. -/
def setLast (l : List String) (p : String) : List String :=
  l.dropLast ++ [p]

/-- navigateTo() from NavigationEngine.ts. -/
def navigateTo (s : EngineBState) (pageId : String) (method : NavMethod) : BResult :=
  if s.isInitialized = false then ⟨s, [], some notSetupMsg⟩
  else
    let prevPage := getCurrentPage s
    let stack :=
      if method = NavMethod.replace ∧ s.historyStack ≠ [] then setLast s.historyStack pageId
      else s.historyStack ++ [pageId]
    let s1 := { s with historyStack := stack }
    notifyAfter { s1 with activeFlow := createFlowContextForPage s1 pageId prevPage method } []

/-- openOverlay() from NavigationEngine.ts: push and notify; note that no
checkInitialized() call guards this operation. -/
def openOverlay (s : EngineBState) (o : Overlay) : BResult :=
  notifyAfter { s with overlayStack := s.overlayStack ++ [o] } []

/-- closeOverlay() from NavigationEngine.ts: the `if (id)` guard is falsy
for an omitted id and for the empty string, in which case the top overlay
is popped; otherwise overlays with a matching id are filtered out.  No
checkInitialized() call guards this operation either. -/
def closeOverlay (s : EngineBState) (id : Option String) : BResult :=
  let s1 :=
    match id with
    | some i =>
        if i = "" then { s with overlayStack := s.overlayStack.dropLast }
        else { s with overlayStack := s.overlayStack.filter (fun o => o.id != i) }
    | none => { s with overlayStack := s.overlayStack.dropLast }
  notifyAfter s1 []

/-- The while loop of exitFlow(): pop pages from the stack top while they
belong to the flow steps. -/
def popFlowPages (steps : List String) (stack : List String) : List String :=
  (stack.reverse.dropWhile (fun p => decide (p ∈ steps))).reverse

/-- exitFlow() from NavigationEngine.ts.  `flowName && name !== flowName`
uses string truthiness for flowName.  `steps[0]` is pushed back; every
context the engine creates has nonempty steps (the page that created it
is a member), which `take 1` mirrors. -/
def exitFlow (s : EngineBState) (flowName : Option String) : BResult :=
  if s.isInitialized = false then ⟨s, [], some notSetupMsg⟩
  else
    match s.activeFlow with
    | none => ⟨s, [], none⟩
    | some ctx =>
        let mismatch : Bool :=
          match flowName with
          | some fn => fn != "" && ctx.name != fn
          | none => false
        if mismatch then ⟨s, [], none⟩
        else
          let cleaned := popFlowPages ctx.steps s.historyStack
          notifyAfter
            { s with historyStack := cleaned ++ ctx.steps.take 1,
                     activeFlow := some { ctx with currentStepIndex := 0 } } []

/-- Truthiness of ctx.entryPageId: null and the empty string are falsy. -/
def entryTruthy : Option String → Bool
  | none => false
  | some e => e != ""

/-- tryHandleFlowBack() from NavigationEngine.ts. -/
def tryHandleFlowBack (s : EngineBState) (current : String) : Option EngineBState :=
  match s.activeFlow with
  | none => none
  | some ctx =>
      if current ∈ ctx.steps then
        let idx := jsIndexOf current ctx.steps
        if idx < 0 then none
        else if 0 < idx then
          some { s with historyStack := s.historyStack.dropLast,
                        activeFlow := some { ctx with currentStepIndex := idx - 1 } }
        else if entryTruthy ctx.entryPageId then
          some { s with historyStack := s.historyStack.dropLast, activeFlow := none }
        else some s
      else none

/-- The `const current = this.getCurrentPage(); if (!current) return`
guard: null and the empty string are both falsy. -/
def currentTruthy (s : EngineBState) : Option String :=
  match getCurrentPage s with
  | none => none
  | some p => if p = "" then none else some p

/-- handleBack() from NavigationEngine.ts: overlay first, then flow
logic, then the main-page guard, then the generic pop. -/
def handleBack (s : EngineBState) : BResult :=
  if s.isInitialized = false then ⟨s, [], some notSetupMsg⟩
  else
    match s.overlayStack.getLast? with
    | some top =>
        notifyAfter { s with overlayStack := s.overlayStack.dropLast }
          [BEvent.overlayBack top.id]
    | none =>
        match currentTruthy s with
        | none => ⟨s, [], none⟩
        | some current =>
            match tryHandleFlowBack s current with
            | some s2 => notifyAfter s2 []
            | none =>
                if s.mainPage = some current then ⟨s, [], none⟩
                else if 1 < s.historyStack.length then
                  let s1 := { s with historyStack := s.historyStack.dropLast }
                  notifyAfter
                    { s1 with activeFlow :=
                        match getCurrentPage s1 with
                        | some nc => createFlowContextForPage s1 nc none NavMethod.replace
                        | none => none } []
                else ⟨s, [], none⟩

/-- subscribe(): register the listener and invoke it immediately with the
current snapshot; a throwing listener lets the exception escape. -/
def subscribe (s : EngineBState) (l : BListener) : BResult :=
  let s1 := { s with listeners := s.listeners ++ [l] }
  ⟨s1, [BEvent.notified l.id (getState s1)],
    if l.throws then some listenerErrMsg else none⟩

end PageEngine

/-! ## Concrete fixture states used by witnesses and counterexamples -/

namespace Fixtures

open EntryEngine PageEngine

/-- The constructor defaults of the entry-store engine config. -/
def cfgD : AConfig := ⟨true, "nav-engine-history", NavigationPriority.NORMAL⟩

/-- A NORMAL entry for the route home. -/
def eHome : NavigationEntry := ⟨"1", "home", none, NavigationPriority.NORMAL, 0, none⟩

/-- A POPUP entry. -/
def eP1 : NavigationEntry := ⟨"2", "p1", none, NavigationPriority.POPUP, 1, none⟩

/-- A second POPUP entry. -/
def eP2 : NavigationEntry := ⟨"3", "p2", none, NavigationPriority.POPUP, 2, none⟩

/-- A NORMAL entry tagged with flow id f. -/
def eFlow : NavigationEntry := ⟨"4", "step", none, NavigationPriority.NORMAL, 3, some "f"⟩

/-- A second NORMAL entry. -/
def eAbout : NavigationEntry := ⟨"5", "about", none, NavigationPriority.NORMAL, 4, none⟩

/-- Entry-store state of the spec example: [Normal home, Popup p1, Popup p2]
with the current position on p2. -/
def sC1 : EngineState := ⟨cfgD, [eHome, eP1, eP2], 2, []⟩

/-- Entry-store state with one registered listener and a flow-tagged entry. -/
def sC6cex : EngineState := ⟨cfgD, [eHome, eFlow], 1, [⟨0, false⟩]⟩

/-- Entry-store state with one registered listener where back() succeeds. -/
def sC6w : EngineState := ⟨cfgD, [eHome, eAbout], 1, [⟨5, false⟩]⟩

/-- A page-stack snapshot with Main current. -/
def snapMain : NavState := ⟨some "Main", ["Main"], []⟩

/-- Initialized page-stack state with two subscribed listeners, the first
of which throws. -/
def sC7 : EngineBState :=
  ⟨some "Main", [], ["Main", "A"], [], none, [⟨0, true⟩, ⟨1, false⟩], true⟩

/-- A fresh, never set up engine on which openOverlay was called: the
overlay stack is nonempty while isInitialized is still false. -/
def sX2 : EngineBState := ⟨none, [], [], [⟨"m"⟩], none, [], false⟩

/-- Initialized page-stack state with one open overlay. -/
def sW2 : EngineBState := ⟨some "Main", [], ["Main", "A"], [⟨"ov"⟩], none, [], true⟩

/-- A two-step flow definition. -/
def fDef : FlowDefinition := ⟨"f", ["In", "Cf"]⟩

/-- Initialized state resting on the main page with no active flow. -/
def sW4 : EngineBState := ⟨some "Main", [fDef], ["Main"], [], none, [], true⟩

/-- A structurally valid stored snapshot: one entry, index 0. -/
def rawGood : RawStore := RawStore.value (JField.jarray [eHome]) (JField.jnumber 0)

/-- Two registered flows whose step lists overlap on page X: flow a holds
X at position 0, the later flow b holds X at position 1. -/
def flowsX : List FlowDefinition := [⟨"a", ["X", "Y"]⟩, ⟨"b", ["W", "X"]⟩]

end Fixtures

/-! ## Shared lemmas -/

open EntryEngine PageEngine Fixtures

/-- Indexing a list at a natural-number position through listGet. -/
theorem listGet_natCast (h : List NavigationEntry) (n : Nat) :
    listGet h (n : Int) = h.get? n := by
  simp [listGet]

/-- Characterization of the popup while loop: either every index up to the
start is POPUP and the loop runs off the left end, or it stops at the
largest index holding a non-POPUP entry. -/
theorem popupScan_spec (h : List NavigationEntry) (t : Nat) :
    (popupScan h t = -1 ∧
      ∀ i : Nat, i ≤ t → priAt h i = some NavigationPriority.POPUP) ∨
    (∃ j : Nat, popupScan h t = (j : Int) ∧ j ≤ t ∧
      priAt h j ≠ some NavigationPriority.POPUP ∧
      ∀ i : Nat, j < i → i ≤ t → priAt h i = some NavigationPriority.POPUP) := by
  induction t with
  | zero =>
      by_cases h0 : priAt h 0 = some NavigationPriority.POPUP
      · left
        refine ⟨by simp [popupScan, h0], ?_⟩
        intro i hi
        have : i = 0 := Nat.le_zero.mp hi
        subst this
        exact h0
      · right
        exact ⟨0, by simp [popupScan, h0], Nat.le_refl 0, h0,
          fun i h1 h2 => absurd h2 (by omega)⟩
  | succ t ih =>
      by_cases hS : priAt h (t + 1) = some NavigationPriority.POPUP
      · rcases ih with ⟨hneg, hall⟩ | ⟨j, hj, hjle, hjnp, hbet⟩
        · left
          refine ⟨by simp [popupScan, hS, hneg], ?_⟩
          intro i hi
          by_cases hi2 : i ≤ t
          · exact hall i hi2
          · have : i = t + 1 := by omega
            subst this
            exact hS
        · right
          refine ⟨j, by simp [popupScan, hS, hj], Nat.le_succ_of_le hjle, hjnp, ?_⟩
          intro i h1 h2
          by_cases hi2 : i ≤ t
          · exact hbet i h1 hi2
          · have : i = t + 1 := by omega
            subst this
            exact hS
      · right
        exact ⟨t + 1, by simp [popupScan, hS], Nat.le_refl _, hS,
          fun i h1 h2 => absurd h2 (by omega)⟩

/-- Every registered listener occurs among the notification events. -/
theorem mem_notifyListeners (e : Option NavigationEntry) {ls : List AListener}
    {l : AListener} (hl : l ∈ ls) :
    AEvent.notify l.id e ∈ notifyListeners e ls := by
  induction ls with
  | nil => cases hl
  | cons x xs ih =>
      rcases List.mem_cons.mp hl with rfl | hmem
      · simp [notifyListeners]
      · simp only [notifyListeners]
        exact List.mem_append_right _ (ih hmem)

/-- Storage-write events are not notifications. -/
theorem filter_isNotify_saveEvents (cfg : AConfig) (h : List NavigationEntry) (i : Int) :
    (saveEvents cfg h i).filter isNotify = [] := by
  unfold saveEvents
  split <;> simp [isNotify]

/-- A successful traversal step notifies every registered listener with
the entry now at the target index. -/
theorem moveTo_notifies (s : EngineState) (i : Int) {l : AListener}
    (hl : l ∈ s.listeners) :
    AEvent.notify l.id (listGet s.history i) ∈ (moveTo s i).events :=
  List.mem_append_left _ (mem_notifyListeners _ hl)

/-! ## Claim C1 -/

/-- C1: when the current entry has priority POPUP, back() scans backward
past every contiguous POPUP entry below it.  If some non-POPUP entry
exists below, back() returns true and jumps currentIndex directly to the
nearest such entry, leaving the history list unchanged; if every entry
below is POPUP, back() returns false and leaves the whole state
unchanged. -/
theorem C1_back_popup_skips (s : EngineState) (cur : NavigationEntry)
    (hcur : listGet s.history s.currentIndex = some cur)
    (hpri : cur.priority = NavigationPriority.POPUP) :
    ((∃ j : Int, 0 ≤ j ∧ j < s.currentIndex ∧
        ∃ e, listGet s.history j = some e ∧ e.priority ≠ NavigationPriority.POPUP) →
      (back s).ok = true ∧
      (back s).state.history = s.history ∧
      0 ≤ (back s).state.currentIndex ∧
      (back s).state.currentIndex < s.currentIndex ∧
      (∃ e, listGet s.history (back s).state.currentIndex = some e ∧
        e.priority ≠ NavigationPriority.POPUP) ∧
      (∀ k : Int, (back s).state.currentIndex < k → k < s.currentIndex →
        ∃ e, listGet s.history k = some e ∧ e.priority = NavigationPriority.POPUP)) ∧
    ((∀ k : Int, 0 ≤ k → k < s.currentIndex →
        ∀ e, listGet s.history k = some e → e.priority = NavigationPriority.POPUP) →
      back s = ⟨s, false, []⟩) := by
  have h0 : 0 ≤ s.currentIndex := by
    by_contra hn
    rw [listGet, if_pos (by omega)] at hcur
    exact Option.noConfusion hcur
  have hget : s.history.get? s.currentIndex.toNat = some cur := by
    rw [listGet, if_neg (by omega)] at hcur
    exact hcur
  have hlen : s.currentIndex.toNat < s.history.length := by
    rcases List.get?_eq_some.mp hget with ⟨hl, -⟩
    exact hl
  have hpa : priAt s.history s.currentIndex.toNat = some NavigationPriority.POPUP := by
    rw [priAt, hget, Option.map_some', hpri]
  by_cases hz : s.currentIndex = 0
  · constructor
    · rintro ⟨j, hj0, hjlt, -⟩
      exfalso
      omega
    · intro _
      simp [back, hz]
  · have hpos : 0 < s.currentIndex := by omega
    rcases popupScan_spec s.history (s.currentIndex.toNat - 1) with
      ⟨hneg, hall⟩ | ⟨j, hj, hjle, hjnp, hbet⟩
    · have hbeq : back s = ⟨s, false, []⟩ := by
        simp [back, hpa, hneg, show ¬ s.currentIndex ≤ 0 by omega]
      constructor
      · rintro ⟨j, hj0, hjlt, e, hje, hep⟩
        exfalso
        have hjlen : j.toNat ≤ s.currentIndex.toNat - 1 := by omega
        have hpj := hall j.toNat hjlen
        rw [listGet, if_neg (by omega)] at hje
        rw [priAt, hje] at hpj
        simp at hpj
        exact hep hpj
      · intro _
        exact hbeq
    · have hjlt2 : j < s.currentIndex.toNat := by omega
      have hbeq : back s = moveTo s (j : Int) := by
        simp [back, hpa, hj, show ¬ s.currentIndex ≤ 0 by omega,
          show ¬ ((j : Int) < 0) by omega]
      obtain ⟨ej, hej⟩ : ∃ e, s.history.get? j = some e := by
        have hjl : j < s.history.length := by omega
        exact ⟨s.history.get ⟨j, hjl⟩, List.get?_eq_get hjl⟩
      have hejn : ej.priority ≠ NavigationPriority.POPUP := by
        intro hc
        exact hjnp (by rw [priAt, hej, Option.map_some', hc])
      constructor
      · intro _
        have hstate : (back s).state = { s with currentIndex := (j : Int) } := by
          rw [hbeq]
          rfl
        have hok : (back s).ok = true := by
          rw [hbeq]
          rfl
        refine ⟨hok, by rw [hstate], ?_, ?_, ?_, ?_⟩
        · rw [hstate]
          exact Int.natCast_nonneg j
        · rw [hstate]
          show (j : Int) < s.currentIndex
          omega
        · refine ⟨ej, ?_, hejn⟩
          rw [hstate]
          show listGet s.history (j : Int) = some ej
          rw [listGet_natCast]
          exact hej
        · intro k hk1 hk2
          rw [hstate] at hk1
          have hk1 : (j : Int) < k := hk1
          have hk0 : (0 : Int) ≤ k := by omega
          have h1 : j < k.toNat := by omega
          have h2 : k.toNat ≤ s.currentIndex.toNat - 1 := by omega
          have hpk := hbet k.toNat h1 h2
          rw [priAt] at hpk
          rcases Option.map_eq_some'.mp hpk with ⟨e, he, hpe⟩
          exact ⟨e, by rw [listGet, if_neg (by omega)]; exact he, hpe⟩
      · intro hallb
        exfalso
        have hjlt3 : (j : Int) < s.currentIndex := by omega
        have := hallb (j : Int) (by omega) hjlt3 ej (by rw [listGet_natCast]; exact hej)
        exact hejn this

/-- C1 witness: on [Normal home, Popup p1, Popup p2] with current index 2,
back() jumps directly to index 0 in a single call. -/
theorem C1_back_popup_skips_witness :
    (back sC1).ok = true ∧
    (back sC1).state.history = sC1.history ∧
    0 ≤ (back sC1).state.currentIndex ∧
    (back sC1).state.currentIndex < sC1.currentIndex ∧
    (∃ e, listGet sC1.history (back sC1).state.currentIndex = some e ∧
      e.priority ≠ NavigationPriority.POPUP) ∧
    (∀ k : Int, (back sC1).state.currentIndex < k → k < sC1.currentIndex →
      ∃ e, listGet sC1.history k = some e ∧ e.priority = NavigationPriority.POPUP) :=
  (C1_back_popup_skips sC1 eP2 (by decide) (by decide)).1
    ⟨0, by decide, by decide, eHome, by decide, by decide⟩

/-! ## Claim C5 -/

/-- C5: the pure predicates agree with the mutating calls on every state:
canGoBack() returns true exactly when back() would return true, and
canGoForward() exactly when forward() would; both predicates are pure
functions of the state and mutate nothing. -/
theorem C5_predicates_agree (s : EngineState) :
    canGoBack s = (back s).ok ∧ canGoForward s = (forward s).ok := by
  constructor
  · by_cases h0 : s.currentIndex ≤ 0
    · simp [canGoBack, back, h0]
    · rcases hp : priAt s.history s.currentIndex.toNat with - | pri
      · have h1 : (0 : Int) < s.currentIndex := by omega
        simp [canGoBack, back, h0, hp, moveTo, h1]
      · cases pri
        · have h1 : (0 : Int) < s.currentIndex := by omega
          simp [canGoBack, back, h0, hp, moveTo, h1]
        · by_cases ht : popupScan s.history (s.currentIndex.toNat - 1) < 0
          · have h2 : ¬ (0 : Int) ≤ popupScan s.history (s.currentIndex.toNat - 1) := by
              omega
            simp [canGoBack, back, h0, hp, ht, h2]
          · have h2 : (0 : Int) ≤ popupScan s.history (s.currentIndex.toNat - 1) := by
              omega
            simp [canGoBack, back, h0, hp, ht, moveTo, h2]
        · simp [canGoBack, back, h0, hp, moveTo]
  · by_cases h1 : (s.history.length : Int) - 1 ≤ s.currentIndex
    · have h2 : ¬ s.currentIndex < (s.history.length : Int) - 1 := by omega
      simp [canGoForward, forward, h1, h2]
    · have h2 : s.currentIndex < (s.history.length : Int) - 1 := by omega
      simp [canGoForward, forward, h1, h2, moveTo]

/-! ## Claim C2 -/

/-- C2 counterexample: on an engine state with a non-empty overlay stack
but isInitialized still false (reachable, since openOverlay performs no
initialization check), handleBack() throws the not-setup error before
touching the overlay stack: the overlay is not removed, its dismissal
callback is not invoked, and no listener is notified.  This falsifies the
claim as stated over every engine state with a non-empty overlay stack. -/
theorem C2_overlay_cex :
    sX2.overlayStack = [⟨"m"⟩] ∧
    (handleBack sX2).state = sX2 ∧
    (handleBack sX2).events = [] ∧
    (handleBack sX2).error = some notSetupMsg := by
  decide

/-- C2 amended: for every initialized engine state whose overlay stack is
non-empty, handleBack() removes exactly the top overlay and invokes that
overlay's dismissal callback, and the history stack, the current page and
the active flow context are left unchanged by the engine, regardless of
the current page or any active flow. -/
theorem C2_overlay_precedence (s : EngineBState) (o : Overlay) (rest : List Overlay)
    (hinit : s.isInitialized = true) (hov : s.overlayStack = rest ++ [o]) :
    (handleBack s).state = { s with overlayStack := rest } ∧
    (handleBack s).events.head? = some (BEvent.overlayBack o.id) := by
  have h1 : s.overlayStack.getLast? = some o := by
    rw [hov]
    simp
  have h2 : s.overlayStack.dropLast = rest := by
    rw [hov]
    simp
  simp [handleBack, hinit, h1, h2, notifyAfter]

/-- C2 witness: with one overlay open over a non-root page, handleBack()
pops only that overlay and fires its callback. -/
theorem C2_overlay_precedence_witness :
    (handleBack sW2).state = { sW2 with overlayStack := [] } ∧
    (handleBack sW2).events.head? = some (BEvent.overlayBack "ov") :=
  C2_overlay_precedence sW2 ⟨"ov"⟩ [] rfl rfl

/-! ## Claim C3 -/

/-- C4: with no overlays open, the current page equal to the configured
main page and outside the active flow's steps, handleBack() is a complete
no-op: the state is unchanged, no callback or notification fires, and no
error escapes. -/
theorem C4_main_page_guard (s : EngineBState) (m : String)
    (hinit : s.isInitialized = true) (hov : s.overlayStack = [])
    (hmain : s.mainPage = some m) (hcur : getCurrentPage s = some m)
    (hflow : ∀ ctx, s.activeFlow = some ctx → m ∉ ctx.steps) :
    (handleBack s).state = s ∧ (handleBack s).events = [] ∧
    (handleBack s).error = none := by
  have hovl : s.overlayStack.getLast? = none := by
    rw [hov]
    rfl
  by_cases hm : m = ""
  · have hct : currentTruthy s = none := by
      simp [currentTruthy, hcur, hm]
    simp [handleBack, hinit, hovl, hct]
  · have hct : currentTruthy s = some m := by
      simp [currentTruthy, hcur, hm]
    have htf : tryHandleFlowBack s m = none := by
      rcases haf : s.activeFlow with - | ctx
      · simp [tryHandleFlowBack, haf]
      · have hnm := hflow ctx haf
        simp [tryHandleFlowBack, haf, hnm]
    simp [handleBack, hinit, hovl, hct, htf, hmain]

/-- C4 witness: a handleBack() on the main page Home state is a no-op. -/
theorem C4_main_page_guard_witness :
    (handleBack sW4).state = sW4 ∧ (handleBack sW4).events = [] ∧
    (handleBack sW4).error = none :=
  C4_main_page_guard sW4 "Main" rfl rfl rfl (by decide) (fun ctx h => nomatch h)

/-! ## Claim C6 -/

/-- C6 counterexample: clearHistory() and removeFlowEntries() are
state-changing operations, yet with a listener registered they emit only
a storage write and no notification at all: on sC6cex, clearHistory
empties a non-empty history and removeFlowEntries drops the flow-tagged
entry and clamps the index, but in both cases the event list contains no
notify event for the registered listener 0.  This falsifies the claim
that every state-changing operation notifies every registered observer. -/
theorem C6_notify_cex :
    sC6cex.listeners = [⟨0, false⟩] ∧
    (clearHistory sC6cex).1.history = [] ∧
    (clearHistory sC6cex).1.currentIndex = -1 ∧
    (clearHistory sC6cex).2 = [AEvent.save [] (-1)] ∧
    (removeFlowEntries sC6cex "f").1.history = [eHome] ∧
    (removeFlowEntries sC6cex "f").1.currentIndex = 0 ∧
    (removeFlowEntries sC6cex "f").2 = [AEvent.save [eHome] 0] := by
  decide

/-- C6 amended: clearHistory() empties the store and resets the index to
-1, and removeFlowEntries() drops exactly the entries tagged with the
given flow id and clamps the index to the new tail; both persist the
resulting store when persistence is enabled but notify no observer at
all.  navigate() notifies every registered observer with the newly
created entry, and back() and forward() notify every registered observer
with the entry at the new currentIndex whenever they return true. -/
theorem C6_notify_amended (s : EngineState) (fid route newId : String) (now : Int)
    (opts : NavigationOptions) :
    ((clearHistory s).1.history = [] ∧ (clearHistory s).1.currentIndex = -1) ∧
    ((removeFlowEntries s fid).1.history =
        s.history.filter (fun e => e.flowId != some fid) ∧
      (removeFlowEntries s fid).1.currentIndex =
        (if ((s.history.filter (fun e => e.flowId != some fid)).length : Int)
            ≤ s.currentIndex
         then ((s.history.filter (fun e => e.flowId != some fid)).length : Int) - 1
         else s.currentIndex)) ∧
    (s.config.enableSessionStorage = true →
      AEvent.save [] (-1) ∈ (clearHistory s).2 ∧
      AEvent.save (removeFlowEntries s fid).1.history
        (removeFlowEntries s fid).1.currentIndex ∈ (removeFlowEntries s fid).2) ∧
    ((clearHistory s).2.filter isNotify = [] ∧
      (removeFlowEntries s fid).2.filter isNotify = []) ∧
    (∀ l ∈ s.listeners,
      AEvent.notify l.id (some (navEntry s.config route opts newId now)) ∈
        (navigate s route opts newId now).2) ∧
    ((back s).ok = true → ∀ l ∈ s.listeners,
      AEvent.notify l.id (listGet s.history (back s).state.currentIndex) ∈
        (back s).events) ∧
    ((forward s).ok = true → ∀ l ∈ s.listeners,
      AEvent.notify l.id (listGet s.history (forward s).state.currentIndex) ∈
        (forward s).events) := by
  refine ⟨⟨rfl, rfl⟩, ⟨rfl, rfl⟩, ?_, ⟨?_, ?_⟩, ?_, ?_, ?_⟩
  · intro hen
    constructor
    · simp only [clearHistory, saveEvents, hen]
      exact List.mem_singleton.mpr rfl
    · simp only [removeFlowEntries, saveEvents, hen]
      exact List.mem_singleton.mpr rfl
  · simp only [clearHistory]
    exact filter_isNotify_saveEvents _ _ _
  · simp only [removeFlowEntries]
    exact filter_isNotify_saveEvents _ _ _
  · intro l hl
    unfold navigate
    by_cases hrep : opts.replace = true ∧ s.history ≠ []
    · rw [if_pos hrep]
      exact List.mem_append_left _ (mem_notifyListeners _ hl)
    · rw [if_neg hrep]
      by_cases hskip : opts.skipHistory = true
      · rw [if_pos hskip]
        exact mem_notifyListeners _ hl
      · rw [if_neg hskip]
        exact List.mem_append_left _ (mem_notifyListeners _ hl)
  · intro hok l hl
    by_cases h0 : s.currentIndex ≤ 0
    · simp [back, h0] at hok
    · rcases hp : priAt s.history s.currentIndex.toNat with - | pri
      · rw [show back s = moveTo s (s.currentIndex - 1) by simp [back, h0, hp]]
        exact moveTo_notifies s _ hl
      · cases pri
        · rw [show back s = moveTo s (s.currentIndex - 1) by simp [back, h0, hp]]
          exact moveTo_notifies s _ hl
        · by_cases ht : popupScan s.history (s.currentIndex.toNat - 1) < 0
          · simp [back, h0, hp, ht] at hok
          · rw [show back s = moveTo s (popupScan s.history (s.currentIndex.toNat - 1)) by
              simp [back, h0, hp, ht]]
            exact moveTo_notifies s _ hl
        · rw [show back s = moveTo s (s.currentIndex - 1) by simp [back, h0, hp]]
          exact moveTo_notifies s _ hl
  · intro hok l hl
    by_cases h1 : (s.history.length : Int) - 1 ≤ s.currentIndex
    · simp [forward, h1] at hok
    · rw [show forward s = moveTo s (s.currentIndex + 1) by simp [forward, h1]]
      exact moveTo_notifies s _ hl

/-- C6 witness: on a state with listener 5 registered, clearHistory
empties the store, persists the empty store and emits no notification,
while a successful back() notifies listener 5 with the entry at the new
currentIndex. -/
theorem C6_notify_amended_witness :
    ((clearHistory sC6w).1.history = [] ∧ (clearHistory sC6w).1.currentIndex = -1) ∧
    AEvent.save [] (-1) ∈ (clearHistory sC6w).2 ∧
    ((clearHistory sC6w).2.filter isNotify = []) ∧
    AEvent.notify 5 (listGet sC6w.history (back sC6w).state.currentIndex) ∈
      (back sC6w).events := by
  have h := C6_notify_amended sC6w "f" "r" "id9" 9 {}
  exact ⟨h.1, (h.2.2.1 rfl).1, h.2.2.2.1.1,
    h.2.2.2.2.2.1 (by decide) ⟨5, false⟩ (by decide)⟩

/-! ## Claim C7 -/

/-- C7: the entry-store variant isolates a throwing listener with
try/catch, so both listeners are invoked and nothing escapes; the
page-stack variant iterates the listener set with a bare forEach, so the
first throwing listener stops delivery and its exception escapes from the
notifying operation.  At the failing input sC7 (two listeners, the first
throws), handleBack() completes its pop but the second listener never
receives the notification and the exception propagates to the caller,
contradicting the claimed isolation. -/
theorem C7_listener_throw_divergence :
    (notifyListeners (some eHome) [⟨0, true⟩, ⟨1, false⟩] =
      [AEvent.notify 0 (some eHome), AEvent.caughtError 0,
        AEvent.notify 1 (some eHome)]) ∧
    (notifyB snapMain [⟨0, true⟩, ⟨1, false⟩] = ([BEvent.notified 0 snapMain], true)) ∧
    (handleBack sC7).state.historyStack = ["Main"] ∧
    (handleBack sC7).error = some listenerErrMsg ∧
    (handleBack sC7).events = [BEvent.notified 0 ⟨some "Main", ["Main"], []⟩] := by
  decide

/-! ## Claim C8 -/

/-- C8 counterexample: openOverlay() performs no initialization check: on
the fresh, never set up engine it mutates the overlay stack and returns
without error, where the claim demands an immediate usage error with no
mutation for every mutating operation called before setup. -/
theorem C8_before_setup_cex :
    emptyB.isInitialized = false ∧
    (openOverlay emptyB ⟨"m"⟩).state.overlayStack = [⟨"m"⟩] ∧
    (openOverlay emptyB ⟨"m"⟩).error = none := by
  decide

/-- C8 amended: before setup, navigateTo(), handleBack() and exitFlow()
fail fast with the not-setup error and mutate nothing, but openOverlay()
and closeOverlay() carry no initialization check and perform their
overlay-stack mutation normally. -/
theorem C8_before_setup (s : EngineBState) (hinit : s.isInitialized = false)
    (p : String) (mth : NavMethod) (o : Overlay) (fn : Option String) :
    (navigateTo s p mth).state = s ∧
    (navigateTo s p mth).error = some notSetupMsg ∧
    (navigateTo s p mth).events = [] ∧
    (handleBack s).state = s ∧
    (handleBack s).error = some notSetupMsg ∧
    (handleBack s).events = [] ∧
    (exitFlow s fn).state = s ∧
    (exitFlow s fn).error = some notSetupMsg ∧
    (openOverlay s o).state = { s with overlayStack := s.overlayStack ++ [o] } ∧
    (closeOverlay s none).state = { s with overlayStack := s.overlayStack.dropLast } := by
  simp [navigateTo, handleBack, exitFlow, openOverlay, closeOverlay, notifyAfter, hinit]

/-- C8 witness: the amended statement at the fresh engine. -/
theorem C8_before_setup_witness :
    (navigateTo emptyB "X" NavMethod.push).state = emptyB ∧
    (navigateTo emptyB "X" NavMethod.push).error = some notSetupMsg ∧
    (handleBack emptyB).state = emptyB ∧
    (openOverlay emptyB ⟨"m"⟩).state = { emptyB with overlayStack := [⟨"m"⟩] } := by
  have h := C8_before_setup emptyB rfl "X" NavMethod.push ⟨"m"⟩ none
  exact ⟨h.1, h.2.1, h.2.2.2.1, h.2.2.2.2.2.2.2.2.1⟩

/-! ## Claim C9 -/

/-- C9: construction with persistence enabled is total over every stored
value (the restore path catches its only fallible step): when the stored
object carries an array under history and a number under currentIndex,
both are adopted verbatim, so getHistory() returns the stored entries and
getCurrent() is the entry the stored index selects; for any other stored
value, absent or unparsable data included, the engine starts with empty
history and the empty sentinel -1. -/
theorem C9_restore_fallback (cfg : AConfig) (hen : cfg.enableSessionStorage = true)
    (raw : RawStore) :
    (∀ l n, raw = RawStore.value (JField.jarray l) (JField.jnumber n) →
      getHistory (construct cfg raw) = l ∧
      (construct cfg raw).currentIndex = n ∧
      getCurrent (construct cfg raw) =
        (if 0 ≤ n ∧ n < (l.length : Int) then listGet l n else none)) ∧
    ((∀ l n, raw ≠ RawStore.value (JField.jarray l) (JField.jnumber n)) →
      (construct cfg raw).history = [] ∧ (construct cfg raw).currentIndex = -1) := by
  constructor
  · rintro l n rfl
    have h1 : construct cfg (RawStore.value (JField.jarray l) (JField.jnumber n)) =
        ⟨cfg, l, n, []⟩ := by
      simp [construct, hen, restoreFromSessionStorage, parseStored, emptyA]
    refine ⟨by rw [getHistory, h1], by rw [h1], ?_⟩
    rw [h1]
    by_cases h2 : 0 ≤ n ∧ n < (l.length : Int)
    · have h3 : ¬ (n < 0 ∨ (l.length : Int) ≤ n) := by
        push_neg
        omega
      rw [if_pos h2]
      simp [getCurrent, h3]
    · have h3 : n < 0 ∨ (l.length : Int) ≤ n := by omega
      rw [if_neg h2]
      simp [getCurrent, h3]
  · intro hne
    rcases raw with - | - | ⟨hf, i⟩
    · simp [construct, hen, restoreFromSessionStorage, parseStored, emptyA]
    · simp [construct, hen, restoreFromSessionStorage, parseStored, emptyA]
    · rcases hf with l | n1 | - <;> rcases i with l2 | n2 | - <;>
        first
        | exact absurd rfl (hne _ _)
        | simp [construct, hen, restoreFromSessionStorage, parseStored, emptyA]

/-- C9 witness: a valid stored snapshot with one entry and index 0 is
adopted exactly. -/
theorem C9_restore_fallback_witness :
    getHistory (construct cfgD rawGood) = [eHome] ∧
    (construct cfgD rawGood).currentIndex = 0 ∧
    getCurrent (construct cfgD rawGood) =
      (if (0 : Int) ≤ 0 ∧ (0 : Int) < (([eHome].length : Nat) : Int)
       then listGet [eHome] 0 else none) :=
  (C9_restore_fallback cfgD rfl rawGood).1 [eHome] 0 rfl

/-! ## Claim C10 -/

/-- C10 counterexample: the claim quantifies over any registered flow
holding initialPage at a position greater than 0, but findFlowByPage
returns the first registered flow whose steps contain the page.  Here X
is a step of registered flow b at position 1, satisfying the claim
hypothesis, yet the context is built for the earlier flow a, where X
sits at position 0 with no recorded entry page, so handleBack() takes
the blocked first-step branch: the stack stays [X] and the current page
stays X instead of becoming empty and null. -/
theorem C10_lone_flow_entry_cex :
    (⟨"b", ["W", "X"]⟩ : FlowDefinition) ∈ flowsX ∧
    jsIndexOf "X" ["W", "X"] = 1 ∧
    (setup emptyB ⟨"Main", some flowsX⟩ (some "X")).error = none ∧
    (handleBack
      (setup emptyB ⟨"Main", some flowsX⟩ (some "X")).state).state.historyStack = ["X"] ∧
    (getState (handleBack
      (setup emptyB ⟨"Main", some flowsX⟩ (some "X")).state).state).current = some "X" := by
  decide

/-- C10 amended: when setup() starts the engine on a non-empty page that
the first registered flow containing it (the flow findFlowByPage selects)
holds at a position greater than zero, the lone history entry carries a
flow context with no recorded entry page, and one handleBack() with no
overlays open takes the mid-flow branch and pops that lone entry:
afterwards the history stack is empty and the current page is null. -/
theorem C10_lone_flow_entry (flows : List FlowDefinition) (m initialPage : String)
    (f : FlowDefinition) (hne : initialPage ≠ "")
    (hfind : findFlowByPage flows (some initialPage) = some f)
    (hidx : 0 < jsIndexOf initialPage f.steps) :
    (setup emptyB ⟨m, some flows⟩ (some initialPage)).error = none ∧
    (handleBack (setup emptyB ⟨m, some flows⟩ (some initialPage)).state).state.historyStack
      = [] ∧
    (getState
      (handleBack (setup emptyB ⟨m, some flows⟩ (some initialPage)).state).state).current
      = none := by
  have hmem : initialPage ∈ f.steps := by
    rw [findFlowByPage, if_neg hne] at hfind
    have h0 := List.find?_some hfind
    simp only [decide_eq_true_eq] at h0
    exact h0
  have e1 : setup emptyB ⟨m, some flows⟩ (some initialPage) =
      ⟨⟨some m, flows, [initialPage], [],
        some ⟨f.name, f.steps, jsIndexOf initialPage f.steps, none⟩, [], true⟩, [], none⟩ := by
    simp [setup, hne, createFlowContextForPage, hfind, emptyB, notifyAfter, notifyB,
      getState, getCurrentPage]
  have e2 : handleBack (⟨some m, flows, [initialPage], [],
      some ⟨f.name, f.steps, jsIndexOf initialPage f.steps, none⟩, [], true⟩ : EngineBState) =
      ⟨⟨some m, flows, [], [],
        some ⟨f.name, f.steps, jsIndexOf initialPage f.steps - 1, none⟩, [], true⟩, [], none⟩ := by
    simp [handleBack, currentTruthy, getCurrentPage, tryHandleFlowBack, hne, hmem,
      show ¬ jsIndexOf initialPage f.steps < 0 by omega, hidx, notifyAfter, notifyB, getState]
  rw [e1]
  refine ⟨rfl, ?_, ?_⟩
  · rw [e2]
  · rw [e2]
    rfl

/-- C10 witness: setup on step b of flow pay (position 1) followed by one
handleBack() leaves an empty stack and a null current page. -/
theorem C10_lone_flow_entry_witness :
    (setup emptyB ⟨"Main", some [⟨"pay", ["a", "b"]⟩]⟩ (some "b")).error = none ∧
    (handleBack
      (setup emptyB ⟨"Main", some [⟨"pay", ["a", "b"]⟩]⟩ (some "b")).state).state.historyStack
      = [] ∧
    (getState (handleBack
      (setup emptyB ⟨"Main", some [⟨"pay", ["a", "b"]⟩]⟩ (some "b")).state).state).current
      = none :=
  C10_lone_flow_entry [⟨"pay", ["a", "b"]⟩] "Main" "b" ⟨"pay", ["a", "b"]⟩
    (by decide) (by decide) (by decide)

end WebviewNav
